import Mathlib

/-!
# Verification of the vp-link viewport follow-crop engine

Shallow embedding of the frame pacer/decimator, cursor-metadata
classifier, crop-origin clamping, deadzone retargeting, smoothing
control loop, cursor-source fallback chain and frame cropper of the
`vp-sndr` and `vp-test` binaries, together with proofs of the spec's
claims about them.

Machine integers (`u32`, `u64`, `usize`) are modelled as `ℕ` with
explicit `% 2 ^ 64` where the source can wrap; `f64` values that flow
through pure comparison/clamping code are modelled as `ℚ`, and the
exponential-smoothing state machine (which calls `f64::exp`) is
modelled over `ℝ`.
-/

namespace VPLink

/-! ## Frame pacer / decimator

From `vp-test/src/main.rs` (`run_record_follow_live`):
  * line 1004: `idx % u64::from(frame_skip.saturating_add(1)) == 0`
    where `idx` is the pre-increment value of `input_frame_count`;
  * lines 1026-1028:
    `dur = 1_000_000_000u64 / output_fps as u64` and
    `pts = (1_000_000_000u64 * idx) / output_fps as u64`
    where `idx` is the pre-increment value of `frame_count`
    (the emission counter).
`vp-sndr/src/main.rs` lines 928-932 assign `pts`/`dur` identically. -/

/-- `frame_skip.saturating_add(1)` for a `u32` value of `frame_skip`. -/
def keepEvery (frameSkip : ℕ) : ℕ := min (frameSkip + 1) (2 ^ 32 - 1)

/-- The decimation decision of `vp-test` line 1004: keep the frame with
input index `idx` iff `idx % keep_every == 0`. -/
def shouldEmit (frameSkip idx : ℕ) : Bool := idx % keepEvery frameSkip == 0

/-- Number of frames emitted among the first `n` input frames. -/
def emittedCount (frameSkip n : ℕ) : ℕ :=
  ((List.range n).filter (fun i => shouldEmit frameSkip i)).length

/-- `1_000_000_000u64 / output_fps as u64` (`vp-test` line 1026). -/
def durNs (fps : ℕ) : ℕ := 10 ^ 9 / fps

/-- `(1_000_000_000u64 * idx) / output_fps as u64` (`vp-test` line 1028);
the `u64` product wraps modulo `2 ^ 64`. -/
def ptsNs (fps idx : ℕ) : ℕ := ((10 ^ 9 * idx) % 2 ^ 64) / fps

theorem keepEvery_eq {frameSkip : ℕ} (h : frameSkip + 1 < 2 ^ 32) :
    keepEvery frameSkip = frameSkip + 1 := by
  unfold keepEvery
  omega

theorem shouldEmit_iff {frameSkip : ℕ} (h : frameSkip + 1 < 2 ^ 32) (idx : ℕ) :
    shouldEmit frameSkip idx = true ↔ idx % (frameSkip + 1) = 0 := by
  simp [shouldEmit, keepEvery_eq h]

theorem emittedCount_succ (frameSkip n : ℕ) :
    emittedCount frameSkip (n + 1) =
      emittedCount frameSkip n + if shouldEmit frameSkip n then 1 else 0 := by
  unfold emittedCount
  rw [List.range_succ, List.filter_append, List.length_append]
  simp [List.filter]
  split <;> simp_all

theorem emittedCount_eq {frameSkip : ℕ} (h : frameSkip + 1 < 2 ^ 32) (n : ℕ) :
    emittedCount frameSkip n = (n + frameSkip) / (frameSkip + 1) := by
  induction n with
  | zero =>
      simp [emittedCount]
      rw [Nat.div_eq_of_lt (by omega)]
  | succ n ih =>
      rw [emittedCount_succ, ih]
      have hdvd : (frameSkip + 1 ∣ n + frameSkip + 1) ↔ (frameSkip + 1 ∣ n) := by
        constructor
        · intro hd
          have := (Nat.dvd_add_self_right (m := frameSkip + 1) (n := n)).mp
          apply this
          have : n + frameSkip + 1 = n + (frameSkip + 1) := by ring
          rwa [this] at hd
        · intro hd
          have : n + frameSkip + 1 = n + (frameSkip + 1) := by ring
          rw [this]
          exact Nat.dvd_add_self_right.mpr hd
      have hrw : n + 1 + frameSkip = (n + frameSkip) + 1 := by ring
      rw [hrw, Nat.succ_div]
      have hsE : (shouldEmit frameSkip n = true) ↔ (frameSkip + 1 ∣ n) := by
        rw [shouldEmit_iff h, Nat.dvd_iff_mod_eq_zero]
      have : n + frameSkip + 1 = n + (frameSkip + 1) := by ring
      by_cases hc : frameSkip + 1 ∣ n
      · rw [if_pos (hdvd.mpr hc), if_pos (hsE.mpr hc)]
      · rw [if_neg (fun hx => hc (hdvd.mp hx)),
          if_neg (fun hx => hc (hsE.mp hx))]

/-- C1: the decimator keeps frame `i` iff `i mod (frame_skip+1) = 0` and
always advances the counter, but across the first `N` input frames it
emits `⌈N/k⌉` frames (`= (N + k - 1) / k`), not `⌊N/k⌋`: input index `0`
is always kept. -/
theorem decimation_counts {frameSkip : ℕ} (h : frameSkip + 1 < 2 ^ 32) (n : ℕ) :
    (∀ idx, shouldEmit frameSkip idx = true ↔ idx % (frameSkip + 1) = 0) ∧
    emittedCount frameSkip n = (n + frameSkip) / (frameSkip + 1) := by
  exact ⟨fun idx => shouldEmit_iff h idx, emittedCount_eq h n⟩

/-- Witness for `decimation_counts` at `frame_skip = 1`, `N = 5`:
3 of the first 5 frames are emitted (`⌈5/2⌉`). -/
theorem decimation_counts_witness :
    (1 + 1 < 2 ^ 32) ∧ (shouldEmit 1 4 = true ↔ 4 % 2 = 0) ∧ emittedCount 1 5 = 3 := by
  refine ⟨by decide, (@decimation_counts 1 (by decide) 5).1 4, ?_⟩
  have h := (@decimation_counts 1 (by decide) 5).2
  simpa using h

/-- Counterexample to C1 as stated: with `keep_ratio = 2` and `N = 1`
source frame, one frame is emitted (input index 0 is kept), while
`⌊N/k⌋ = ⌊1/2⌋ = 0`. -/
theorem decimation_floor_counterexample :
    emittedCount 1 1 = 1 ∧ (1 : ℕ) / 2 = 0 := by decide

theorem ptsNs_no_wrap {fps idx : ℕ} (h : 10 ^ 9 * idx < 2 ^ 64) :
    ptsNs fps idx = 10 ^ 9 * idx / fps := by
  unfold ptsNs
  rw [Nat.mod_eq_of_lt h]

theorem ptsNs_step {fps idx : ℕ} (hfps : 0 < fps)
    (h : 10 ^ 9 * (idx + 1) < 2 ^ 64) :
    ptsNs fps (idx + 1) =
      ptsNs fps idx + durNs fps +
        if fps ≤ 10 ^ 9 * idx % fps + 10 ^ 9 % fps then 1 else 0 := by
  have h' : 10 ^ 9 * idx < 2 ^ 64 := by nlinarith
  rw [ptsNs_no_wrap h, ptsNs_no_wrap h']
  have : 10 ^ 9 * (idx + 1) = 10 ^ 9 * idx + 10 ^ 9 := by ring
  rw [this, Nat.add_div hfps]
  rfl

/-- C2 (amended): emitted frame `n` carries
`pts = ⌊n · 10⁹ / output_fps⌋` and `duration = ⌊10⁹ / output_fps⌋`
(integer division).  Successive timestamps differ by `duration` or
`duration + 1`, so for `0 < output_fps ≤ 10⁹` the sequence is strictly
increasing; the exact law `pts = n · duration` and exact gap-freeness
hold only when `output_fps` divides `10⁹`. -/
theorem frame_pacing {fps idx : ℕ} (hfps : 0 < fps) (hle : fps ≤ 10 ^ 9)
    (h : 10 ^ 9 * (idx + 1) < 2 ^ 64) :
    ptsNs fps idx = 10 ^ 9 * idx / fps ∧
    durNs fps = 10 ^ 9 / fps ∧
    durNs fps ≤ ptsNs fps (idx + 1) - ptsNs fps idx ∧
    ptsNs fps (idx + 1) - ptsNs fps idx ≤ durNs fps + 1 ∧
    ptsNs fps idx < ptsNs fps (idx + 1) := by
  have h' : 10 ^ 9 * idx < 2 ^ 64 := by nlinarith
  have hstep := ptsNs_step hfps h
  have hdur : 1 ≤ durNs fps := by
    unfold durNs
    exact (Nat.one_le_div_iff hfps).mpr hle
  refine ⟨ptsNs_no_wrap h', rfl, ?_, ?_, ?_⟩
  · rw [hstep]; split <;> omega
  · rw [hstep]; split <;> omega
  · rw [hstep]; split <;> omega

/-- Witness for `frame_pacing` at `output_fps = 30`, `n = 1`. -/
theorem frame_pacing_witness :
    (0 < 30 ∧ 30 ≤ 10 ^ 9 ∧ 10 ^ 9 * (1 + 1) < 2 ^ 64) ∧
    ptsNs 30 1 = 33333333 ∧ durNs 30 = 33333333 ∧ ptsNs 30 1 < ptsNs 30 2 := by
  have h := @frame_pacing 30 1 (by decide) (by decide) (by decide)
  exact ⟨⟨by decide, by decide, by decide⟩, by decide, by decide, h.2.2.2.2⟩

/-- Counterexample to C2 as stated: with `output_fps = 3`,
`period_ns = ⌊10⁹/3⌋ = 333333333`; the third emitted frame has
`pts = ⌊3·10⁹/3⌋ = 10⁹ ≠ 3 · period_ns = 999999999`, and its `pts`
differs from the previous frame's `pts + duration` (the stream is not
exactly gap-free). -/
theorem frame_pacing_counterexample :
    ptsNs 3 3 ≠ 3 * durNs 3 ∧ ptsNs 3 3 ≠ ptsNs 3 2 + durNs 3 := by decide

/-! ## Embedded cursor-metadata classification

`read_xy_from_structure` (`vp-sndr/src/main.rs` lines 1363-1373 and the
identical copy in `vp-test/src/main.rs` lines 1145-1155).  The `x`/`y`
inputs are the numbers already extracted from the metadata structure
(the code's `f64`-else-`i32` field read); the function decides how to
interpret them against the frame dimensions `src_w`, `src_h`. -/

/-- Lines 1366-1372 of `vp-sndr/src/main.rs`: first branch accepts
`0 ≤ x ≤ src_w ∧ 0 ≤ y ≤ src_h` as absolute pixels; second branch
accepts `0 ≤ x ≤ 1 ∧ 0 ≤ y ≤ 1` as normalized and scales; otherwise
the sample is rejected. -/
def read_xy_from_structure (x y : ℚ) (srcW srcH : ℕ) : Option (ℚ × ℚ) :=
  if 0 ≤ x ∧ 0 ≤ y ∧ x ≤ (srcW : ℚ) ∧ y ≤ (srcH : ℚ) then
    some (x, y)
  else if 0 ≤ x ∧ 0 ≤ y ∧ x ≤ 1 ∧ y ≤ 1 then
    some (x * (srcW : ℚ), y * (srcH : ℚ))
  else
    none

/-- C3 (code bug): a metadata pair `(0.5, 0.5)` on a 1920×1080 frame is
returned unscaled as absolute pixels by the code, because the
absolute-pixels branch is tested first and `[0,1]² ⊆ [0,w]×[0,h]`; the
spec's normalized interpretation would give `(960, 540)`.  The
normalized branch of the code is unreachable on any frame with
`src_w, src_h ≥ 1`. -/
theorem read_xy_normalized_bug :
    read_xy_from_structure (1 / 2) (1 / 2) 1920 1080 = some (1 / 2, 1 / 2) ∧
    read_xy_from_structure (1 / 2) (1 / 2) 1920 1080 ≠ some (960, 540) := by
  constructor
  · rw [read_xy_from_structure, if_pos (by norm_num)]
  · rw [read_xy_from_structure, if_pos (by norm_num)]
    intro hcontra
    have := Option.some.inj hcontra
    have hx := congrArg Prod.fst this
    norm_num at hx

/-! ## Crop-origin clamping

`vp-sndr/src/main.rs` lines 885-888 (and the identical computation in
`vp-test/src/main.rs` lines 991-994):
```
let max_x = (src_w - out_w) as f64;
let cx = (st.center_x - cfg_width as f64 / 2.0).clamp(0.0, max_x).round() as usize;
```
The `usize` subtraction is guarded by the session-fatal check
`src_w < out_w || src_h < out_h` at lines 781-783. -/

/-- `f64::clamp`: `min (max v lo) hi` (for `lo ≤ hi`). -/
def clampQ {α : Type} [LinearOrder α] (v lo hi : α) : α := min (max v lo) hi

/-- `f64::round`: round half away from zero. -/
def roundQ (v : ℚ) : ℤ :=
  if v < 0 then -⌊-v + 1 / 2⌋ else ⌊v + 1 / 2⌋

/-- One axis of the crop-origin computation (lines 885-888). -/
def crop_origin (center : ℚ) (outDim srcDim : ℕ) : ℤ :=
  roundQ (clampQ (center - (outDim : ℚ) / 2) 0 ((srcDim - outDim : ℕ) : ℚ))

theorem roundQ_nonneg {v : ℚ} (h : 0 ≤ v) : 0 ≤ roundQ v := by
  unfold roundQ
  rw [if_neg (not_lt.mpr h)]
  exact Int.floor_nonneg.mpr (by linarith)

/-- C4: for any (arbitrarily out-of-range) center value, the computed
crop origin satisfies `0 ≤ x ≤ src_dim - out_dim` whenever
`out_dim ≤ src_dim`; unclamped centers are never propagated. -/
theorem crop_origin_invariant (center : ℚ) {outDim srcDim : ℕ}
    (_out_le_src : outDim ≤ srcDim) :
    0 ≤ crop_origin center outDim srcDim ∧
    crop_origin center outDim srcDim ≤ ((srcDim - outDim : ℕ) : ℤ) := by
  set M : ℕ := srcDim - outDim with hM
  have hv0 : (0 : ℚ) ≤ clampQ (center - (outDim : ℚ) / 2) 0 (M : ℚ) := by
    unfold clampQ
    exact le_min (le_max_right _ _) (by positivity)
  have hvM : clampQ (center - (outDim : ℚ) / 2) 0 (M : ℚ) ≤ (M : ℚ) :=
    min_le_right _ _
  constructor
  · exact roundQ_nonneg hv0
  · unfold crop_origin roundQ
    rw [if_neg (by linarith)]
    rw [← hM]
    have : clampQ (center - (outDim : ℚ) / 2) 0 (M : ℚ) + 1 / 2 <
        ((M : ℤ) : ℚ) + 1 := by
      push_cast
      linarith
    exact Int.le_of_lt_add_one ((Int.floor_lt (z := (M : ℤ) + 1)).mpr (by push_cast at this ⊢; linarith))

/-- Witness for `crop_origin_invariant`: a wildly out-of-range center
`10⁶` with `out_w = 1280`, `src_w = 1920` clamps to origin `640`. -/
theorem crop_origin_invariant_witness :
    (1280 ≤ 1920) ∧ 0 ≤ crop_origin 1000000 1280 1920 ∧
    crop_origin 1000000 1280 1920 ≤ ((1920 - 1280 : ℕ) : ℤ) := by
  refine ⟨by decide, (crop_origin_invariant 1000000 (by decide)).1,
    (crop_origin_invariant 1000000 (by decide)).2⟩

/-! ## Deadzone retargeting (`vp-sndr` follow policy)

`vp-sndr/src/main.rs` lines 828-861.  The constants are
`DEFAULT_CURSOR_CHANGE_EPSILON_PX = 0.25` (line 44) and the deadzone
half-extents `(cfg_width as f64) * (cfg_deadzone / 100.0) / 2.0`
(lines 833-834).  Polymorphic over an ordered field so the same
definition serves the exact `ℚ` statements and the `ℝ`-valued
state machine below. -/

/-- Lines 829-830: the cursor counts as moved when either axis changed
by more than `DEFAULT_CURSOR_CHANGE_EPSILON_PX = 0.25`. -/
def cursorChanged {α : Type} [LinearOrderedField α] (cx cy px py : α) : Bool :=
  decide (1 / 4 < |cx - px|) || decide (1 / 4 < |cy - py|)

/-- Lines 840-853, one axis: pull the cursor back to the nearest
deadzone edge, or keep the current center when inside the zone. -/
def dzTargetAxis {α : Type} [LinearOrderedField α] (center cursor half : α) : α :=
  if cursor < center - half then cursor + half
  else if center + half < cursor then cursor - half
  else center

/-- Lines 828-861: when the cursor moved, retarget (deadzone pull-back,
or snap to the cursor when `deadzone == 0`) and set `is_lerping`;
otherwise keep the previous target and flag.  Arguments: deadzone
percentage, output dimensions, current center `(cX, cY)`, clamped
cursor `(uX, uY)`, previous cursor `(pX, pY)`, previous target
`(tX, tY)`, previous `is_lerping`. -/
def sndrRetarget {α : Type} [LinearOrderedField α]
    (dz outW outH cX cY uX uY pX pY tX tY : α) (lerping : Bool) :
    (α × α) × Bool :=
  if cursorChanged uX uY pX pY then
    (if 0 < dz then
      (dzTargetAxis cX uX (outW * (dz / 100) / 2),
       dzTargetAxis cY uY (outH * (dz / 100) / 2))
    else (uX, uY), true)
  else ((tX, tY), lerping)

/-- C5: when the cursor moved by more than 0.25 px, the controller
enters FOLLOWING; if it lies outside the deadzone of half-extents
`out_w·dz/200 × out_h·dz/200`, the new target is the cursor pulled back
by the half-extent on each violated axis, and exactly the cursor when
`dz = 0`.  In the spec scenario (`src 1920×1080`, `out 1280×720`,
center `(960,540)`, `dz = 20`, cursor `(1850,100)`) the target x is
`1722` and the converged crop origin x is `640`. -/
theorem deadzone_retargeting :
    (∀ (dz outW outH cX cY uX uY pX pY tX tY : ℚ) (lerping : Bool),
      0 ≤ outW → 0 ≤ outH →
      cursorChanged uX uY pX pY = true →
        (sndrRetarget dz outW outH cX cY uX uY pX pY tX tY lerping).2 = true ∧
        (0 < dz →
          (cX + outW * dz / 200 < uX →
            (sndrRetarget dz outW outH cX cY uX uY pX pY tX tY lerping).1.1 =
              uX - outW * dz / 200) ∧
          (uX < cX - outW * dz / 200 →
            (sndrRetarget dz outW outH cX cY uX uY pX pY tX tY lerping).1.1 =
              uX + outW * dz / 200) ∧
          (cY + outH * dz / 200 < uY →
            (sndrRetarget dz outW outH cX cY uX uY pX pY tX tY lerping).1.2 =
              uY - outH * dz / 200) ∧
          (uY < cY - outH * dz / 200 →
            (sndrRetarget dz outW outH cX cY uX uY pX pY tX tY lerping).1.2 =
              uY + outH * dz / 200)) ∧
        (dz = 0 →
          (sndrRetarget dz outW outH cX cY uX uY pX pY tX tY lerping).1 =
            (uX, uY))) ∧
    (sndrRetarget (20 : ℚ) 1280 720 960 540 1850 100 960 540 960 540 true).1.1 =
      1722 ∧
    (sndrRetarget (20 : ℚ) 1280 720 960 540 1850 100 960 540 960 540 true).2 =
      true ∧
    crop_origin 1722 1280 1920 = 640 := by
  refine ⟨?_, ?_, ?_, ?_⟩
  · intro dz outW outH cX cY uX uY pX pY tX tY lerping hW hH hmoved
    have hhx : outW * (dz / 100) / 2 = outW * dz / 200 := by ring
    have hhy : outH * (dz / 100) / 2 = outH * dz / 200 := by ring
    have hsplit : sndrRetarget dz outW outH cX cY uX uY pX pY tX tY lerping =
        (if 0 < dz then
          (dzTargetAxis cX uX (outW * (dz / 100) / 2),
           dzTargetAxis cY uY (outH * (dz / 100) / 2))
        else (uX, uY), true) := by
      unfold sndrRetarget
      rw [hmoved]
      simp
    rw [hsplit]
    refine ⟨rfl, ?_, ?_⟩
    · intro hdz
      rw [if_pos hdz]
      have hWd : 0 ≤ outW * dz / 200 := by positivity
      have hHd : 0 ≤ outH * dz / 200 := by positivity
      refine ⟨?_, ?_, ?_, ?_⟩
      · intro hout
        show dzTargetAxis cX uX (outW * (dz / 100) / 2) = _
        unfold dzTargetAxis
        rw [hhx, if_neg (by linarith), if_pos (by linarith)]
      · intro hout
        show dzTargetAxis cX uX (outW * (dz / 100) / 2) = _
        unfold dzTargetAxis
        rw [hhx, if_pos (by linarith)]
      · intro hout
        show dzTargetAxis cY uY (outH * (dz / 100) / 2) = _
        unfold dzTargetAxis
        rw [hhy, if_neg (by linarith), if_pos (by linarith)]
      · intro hout
        show dzTargetAxis cY uY (outH * (dz / 100) / 2) = _
        unfold dzTargetAxis
        rw [hhy, if_pos (by linarith)]
    · intro hdz
      rw [if_neg (by rw [hdz]; exact lt_irrefl 0)]
  · norm_num [sndrRetarget, cursorChanged, dzTargetAxis]
  · norm_num [sndrRetarget, cursorChanged]
  · norm_num [crop_origin, roundQ, clampQ]

/-- Witness for `deadzone_retargeting`: the universally quantified part
applied to the spec scenario itself. -/
theorem deadzone_retargeting_witness :
    cursorChanged (1850 : ℚ) 100 960 540 = true ∧
    (sndrRetarget (20 : ℚ) 1280 720 960 540 1850 100 960 540 960 540 true).1.1 =
      1850 - 1280 * 20 / 200 := by
  refine ⟨by norm_num [cursorChanged], ?_⟩
  have h := (deadzone_retargeting.1 20 1280 720 960 540 1850 100 960 540 960 540
    true (by norm_num) (by norm_num) (by norm_num [cursorChanged])).2.1
    (by norm_num)
  exact h.1 (by norm_num)

/-! ## Frame cropper

`vp-sndr/src/main.rs` lines 908-918: per output row the copy source
range is `plane0_offset + (crop_y + row) * stride + crop_x * 4` with
length `out_w * 4`; the explicit check `if src_end > src.len()` returns
`gst::FlowError::Error` to the caller (no buffer is pushed).

`vp-test/src/main.rs` lines 1010-1016 copy the same ranges (with
`plane0 = 0` and `stride = src_w * 4`) but have **no** bounds check:
an out-of-range `&src[src_off..src_end]` slice panics.  The panic is
modelled by the distinguished outcome `TestCrop.panicked`. -/

/-- Row-by-row loop that aborts on the first failing row. -/
def optionMapList {α β : Type} (f : α → Option β) : List α → Option (List β)
  | [] => some []
  | a :: l =>
    match f a with
    | none => none
    | some b =>
      match optionMapList f l with
      | none => none
      | some bs => some (b :: bs)

/-- One row of the `vp-sndr` copy (lines 910-917): `none` is the
`Err(gst::FlowError::Error)` return taken when
`src_off + out_w * 4 > src.len()`. -/
def sndrCropRow (src : List ℕ) (plane0 stride cropX outW y : ℕ) :
    Option (List ℕ) :=
  let srcOff := plane0 + y * stride + cropX * 4
  if src.length < srcOff + outW * 4 then none
  else some ((src.drop srcOff).take (outW * 4))

/-- The `vp-sndr` row loop (lines 909-918). -/
def sndrCrop (src : List ℕ) (plane0 stride cropX cropY outW outH : ℕ) :
    Option (List ℕ) :=
  (optionMapList (fun r => sndrCropRow src plane0 stride cropX outW (cropY + r))
    (List.range outH)).map List.flatten

/-- Outcome of the `vp-test` row loop: either the assembled output
bytes or a Rust panic from an out-of-range slice index. -/
inductive TestCrop : Type
  | ok (data : List ℕ)
  | panicked
deriving DecidableEq

/-- The `vp-test` row loop (lines 1010-1016): `stride = src_w * 4`
(line 879), `plane0 = 0`, and no bounds check — an out-of-range row
panics. -/
def testCrop (src : List ℕ) (srcW cropX cropY outW outH : ℕ) : TestCrop :=
  match optionMapList
      (fun r => sndrCropRow src 0 (srcW * 4) cropX outW (cropY + r))
      (List.range outH) with
  | some rows => TestCrop.ok rows.flatten
  | none => TestCrop.panicked

theorem optionMapList_eq_none {α β : Type} (f : α → Option β) (l : List α) :
    optionMapList f l = none ↔ ∃ a ∈ l, f a = none := by
  induction l with
  | nil => simp [optionMapList]
  | cons a l ih =>
      cases hfa : f a with
      | none =>
          simp only [optionMapList, hfa]
          exact ⟨fun _ => ⟨a, List.mem_cons_self a l, hfa⟩, fun _ => trivial⟩
      | some b =>
          cases hrec : optionMapList f l with
          | none =>
              simp only [optionMapList, hfa, hrec]
              rw [hrec] at ih
              obtain ⟨x, hx, hfx⟩ := ih.mp rfl
              exact ⟨fun _ => ⟨x, List.mem_cons_of_mem a hx, hfx⟩, fun _ => trivial⟩
          | some bs =>
              simp only [optionMapList, hfa, hrec]
              rw [hrec] at ih
              constructor
              · intro hcontra
                exact Option.noConfusion hcontra
              · rintro ⟨x, hx, hfx⟩
                rcases List.mem_cons.mp hx with hax | hlx
                · rw [hax] at hfx; rw [hfa] at hfx
                  exact Option.noConfusion hfx
                · exact Option.noConfusion (ih.mpr ⟨x, hlx, hfx⟩)

/-- C9 (amended): in `vp-sndr` any row whose computed source range
exceeds the buffer makes the whole crop return an error (no frame
emitted); in `vp-test`'s follow recorder the same condition is not
checked and the row copy panics instead of returning an error. -/
theorem cropper_bounds (src : List ℕ) (plane0 stride cropX cropY outW outH srcW : ℕ) :
    ((∃ r < outH, src.length < plane0 + (cropY + r) * stride + cropX * 4 + outW * 4) →
      sndrCrop src plane0 stride cropX cropY outW outH = none) ∧
    ((∃ r < outH, src.length < (cropY + r) * (srcW * 4) + cropX * 4 + outW * 4) →
      testCrop src srcW cropX cropY outW outH = TestCrop.panicked) := by
  constructor
  · rintro ⟨r, hr, hlen⟩
    unfold sndrCrop
    rw [(optionMapList_eq_none _ _).mpr ⟨r, by simpa using hr, ?_⟩]
    · rfl
    · unfold sndrCropRow
      rw [if_pos (by omega)]
  · rintro ⟨r, hr, hlen⟩
    unfold testCrop
    rw [(optionMapList_eq_none _ _).mpr ⟨r, by simpa using hr, ?_⟩]
    unfold sndrCropRow
    rw [if_pos (by omega)]

/-- Witness for `cropper_bounds`: a 1-row 8-byte buffer asked for two
2-pixel rows fails in `vp-sndr` and panics in `vp-test`. -/
theorem cropper_bounds_witness :
    sndrCrop (List.replicate 8 0) 0 8 0 0 2 2 = none ∧
    testCrop (List.replicate 8 0) 2 0 0 2 2 = TestCrop.panicked := by
  constructor
  · exact (cropper_bounds (List.replicate 8 0) 0 8 0 0 2 2 2).1
      ⟨1, by norm_num⟩
  · exact (cropper_bounds (List.replicate 8 0) 0 8 0 0 2 2 2).2
      ⟨1, by norm_num⟩

/-- Counterexample to C9 as stated: the `vp-test` row copy does not
return a bounds error to the caller; an out-of-range row is a panic
(`TestCrop.panicked`), i.e. a crash, not an error return. -/
theorem cropper_bounds_counterexample :
    testCrop (List.replicate 8 0) 2 0 0 1 2 = TestCrop.panicked := by decide

/-! ## Cursor signal aggregation

`vp-sndr/src/main.rs` lines 791-822 and `vp-test/src/main.rs` lines
886-928: embedded per-frame metadata first, then the compositor
cursor-session cell, then the drained relative-delta accumulator added
to the previous cursor; if nothing yields a value the cursor keeps its
previous value.  An absent tracker and a present tracker whose shared
cell holds no value behave identically (`used_cosmic` stays false), so
both are modelled as `none`. -/

/-- The three per-frame cursor sources as read inside the callback. -/
structure CursorSources : Type where
  meta : Option (ℝ × ℝ)
  cosmic : Option (ℝ × ℝ)
  deltas : Option (ℝ × ℝ)

/-- The fallback chain applied to the previous cursor `(px, py)`. -/
def resolveCursor (srcs : CursorSources) (px py : ℝ) : ℝ × ℝ :=
  match srcs.meta with
  | some m => m
  | none =>
    match srcs.cosmic with
    | some v => v
    | none =>
      match srcs.deltas with
      | some d => (px + d.1, py + d.2)
      | none => (px, py)

/-! ## `vp-sndr` follow state machine

`vp-sndr/src/main.rs` lines 785-889.  `FollowState` (lines 603-612)
minus `last_frame_at`, whose only use is producing the elapsed time
`dt`, taken here as the input `elapsed`.  The smoothing/settle
constants are `DEFAULT_MOUSE_SMOOTHING = 8.0` (a config default),
`DEFAULT_SETTLE_EPSILON_PX = 0.75` (line 45). -/

structure SndrState : Type where
  center_x : ℝ
  center_y : ℝ
  cursor_x : ℝ
  cursor_y : ℝ
  target_x : ℝ
  target_y : ℝ
  is_lerping : Bool

/-- Lines 824-827 applied to the source-resolved cursor: clamp to
`[0, src_w-1] × [0, src_h-1]` (`saturating_sub`). -/
noncomputable def sndrClampedCursor (srcs : CursorSources) (srcW srcH : ℕ)
    (st : SndrState) : ℝ × ℝ :=
  (clampQ (resolveCursor srcs st.cursor_x st.cursor_y).1 0 ((srcW - 1 : ℕ) : ℝ),
   clampQ (resolveCursor srcs st.cursor_x st.cursor_y).2 0 ((srcH - 1 : ℕ) : ℝ))

/-- Lines 870-884: exponential lerp toward the target with
`alpha = 1 - exp(-smoothing·dt)`, then snap exactly to the target and
stop lerping once the squared distance falls within
`DEFAULT_SETTLE_EPSILON_PX² = 0.75²`. -/
noncomputable def sndrLerpStage (smoothing dt : ℝ) (st : SndrState) : SndrState :=
  if st.is_lerping then
    let alpha := 1 - Real.exp (-smoothing * dt)
    let cx := st.center_x + (st.target_x - st.center_x) * alpha
    let cy := st.center_y + (st.target_y - st.center_y) * alpha
    let dx := st.target_x - cx
    let dy := st.target_y - cy
    if dx * dx + dy * dy ≤ 3 / 4 * (3 / 4) then
      { st with center_x := st.target_x, center_y := st.target_y,
                is_lerping := false }
    else
      { st with center_x := cx, center_y := cy }
  else st

/-- One full frame of the `vp-sndr` follow-state mutation
(lines 785-884): resolve cursor sources (only when `--follow-mouse`),
clamp, retarget against the deadzone, then lerp with
`dt = max elapsed 0.000001` (line 870). -/
noncomputable def sndrFollowUpdate (follow : Bool) (cfgX cfgY width height : ℕ)
    (smoothing deadzone : ℝ) (srcW srcH : ℕ) (srcs : CursorSources)
    (elapsed : ℝ) (st : SndrState) : SndrState :=
  let u :=
    if follow then sndrClampedCursor srcs srcW srcH st
    else (clampQ st.cursor_x 0 ((srcW - 1 : ℕ) : ℝ),
          clampQ st.cursor_y 0 ((srcH - 1 : ℕ) : ℝ))
  let st1 :=
    if follow then
      let r := sndrRetarget deadzone (width : ℝ) (height : ℝ)
        st.center_x st.center_y u.1 u.2 st.cursor_x st.cursor_y
        st.target_x st.target_y st.is_lerping
      { center_x := st.center_x, center_y := st.center_y,
        cursor_x := u.1, cursor_y := u.2,
        target_x := r.1.1, target_y := r.1.2, is_lerping := r.2 }
    else
      { center_x := (cfgX : ℝ) + (width : ℝ) / 2,
        center_y := (cfgY : ℝ) + (height : ℝ) / 2,
        cursor_x := u.1, cursor_y := u.2,
        target_x := (cfgX : ℝ) + (width : ℝ) / 2,
        target_y := (cfgY : ℝ) + (height : ℝ) / 2,
        is_lerping := false }
  sndrLerpStage smoothing (max elapsed 0.000001) st1

theorem sndrLerpStage_far (k dt cX cY uX uY tX tY : ℝ)
    (hfar : ¬((tX - (cX + (tX - cX) * (1 - Real.exp (-k * dt)))) *
        (tX - (cX + (tX - cX) * (1 - Real.exp (-k * dt)))) +
        (tY - (cY + (tY - cY) * (1 - Real.exp (-k * dt)))) *
        (tY - (cY + (tY - cY) * (1 - Real.exp (-k * dt)))) ≤ 3 / 4 * (3 / 4))) :
    sndrLerpStage k dt ⟨cX, cY, uX, uY, tX, tY, true⟩ =
      ⟨cX + (tX - cX) * (1 - Real.exp (-k * dt)),
       cY + (tY - cY) * (1 - Real.exp (-k * dt)), uX, uY, tX, tY, true⟩ := by
  simp only [sndrLerpStage, eq_self_iff_true, if_true]
  rw [if_neg hfar]

theorem sndrLerpStage_snap (k dt cX cY uX uY tX tY : ℝ)
    (hnear : (tX - (cX + (tX - cX) * (1 - Real.exp (-k * dt)))) *
        (tX - (cX + (tX - cX) * (1 - Real.exp (-k * dt)))) +
        (tY - (cY + (tY - cY) * (1 - Real.exp (-k * dt)))) *
        (tY - (cY + (tY - cY) * (1 - Real.exp (-k * dt)))) ≤ 3 / 4 * (3 / 4)) :
    sndrLerpStage k dt ⟨cX, cY, uX, uY, tX, tY, true⟩ =
      ⟨tX, tY, uX, uY, tX, tY, false⟩ := by
  simp only [sndrLerpStage, eq_self_iff_true, if_true]
  rw [if_pos hnear]

theorem sndrLerpStage_id (k dt : ℝ) (st : SndrState) (h : st.is_lerping = false) :
    sndrLerpStage k dt st = st := by
  simp only [sndrLerpStage, h]
  rfl

theorem exp_neg_point_eight_bounds :
    (0.4492 : ℝ) < Real.exp (-(4 / 5)) ∧ Real.exp (-(4 / 5)) < 0.4494 := by
  have hx : |(-(4 / 5) : ℝ)| ≤ 1 := by
    rw [abs_neg, abs_of_nonneg (by norm_num : (0 : ℝ) ≤ 4 / 5)]
    norm_num
  have hb := @Real.exp_bound (-(4 / 5)) hx 8 (by norm_num)
  rw [abs_neg, abs_of_nonneg (by norm_num : (0 : ℝ) ≤ 4 / 5)] at hb
  rw [abs_le] at hb
  norm_num [Finset.sum_range_succ, Nat.factorial] at hb
  constructor <;> linarith [hb.1, hb.2]

/-- C6 (amended): while the post-step distance to the target stays above
the settle threshold, the center advances per axis by the fraction
`alpha = 1 - exp(-smoothing·dt)` of the remaining distance; the law
tends to the unchanged center as `dt → 0` and to the target as
`dt → ∞` (for positive smoothing); and for `smoothing = 8`, `dt = 0.1`
the fraction is `1 - e^{-0.8} ∈ (0.5506, 0.5508)`, i.e. `≈ 0.5507`.
When the post-step squared distance falls within `0.75²` the center
instead snaps exactly to the target (settle rule, lines 876-883). -/
theorem smoothing_law :
    (∀ (k dt : ℝ) (st : SndrState), st.is_lerping = true →
      3 / 4 * (3 / 4) <
        (st.target_x - st.center_x) * Real.exp (-k * dt) *
          ((st.target_x - st.center_x) * Real.exp (-k * dt)) +
        (st.target_y - st.center_y) * Real.exp (-k * dt) *
          ((st.target_y - st.center_y) * Real.exp (-k * dt)) →
      (sndrLerpStage k dt st).center_x =
        st.center_x + (st.target_x - st.center_x) * (1 - Real.exp (-k * dt)) ∧
      (sndrLerpStage k dt st).center_y =
        st.center_y + (st.target_y - st.center_y) * (1 - Real.exp (-k * dt))) ∧
    (∀ c t k : ℝ,
      Filter.Tendsto (fun dt : ℝ => c + (t - c) * (1 - Real.exp (-k * dt)))
        (nhds 0) (nhds c)) ∧
    (∀ c t k : ℝ, 0 < k →
      Filter.Tendsto (fun dt : ℝ => c + (t - c) * (1 - Real.exp (-k * dt)))
        Filter.atTop (nhds t)) ∧
    ((0.5506 : ℝ) < 1 - Real.exp (-8 * 0.1) ∧
      (1 : ℝ) - Real.exp (-8 * 0.1) < 0.5508) := by
  refine ⟨?_, ?_, ?_, ?_⟩
  · intro k dt st hl hfar
    obtain ⟨cX, cY, uX, uY, tX, tY, b⟩ := st
    simp only at hl hfar ⊢
    subst hl
    rw [sndrLerpStage_far k dt cX cY uX uY tX tY (by rw [not_le]; nlinarith [hfar])]
    exact ⟨rfl, rfl⟩
  · intro c t k
    have hcont : Continuous fun dt : ℝ => c + (t - c) * (1 - Real.exp (-k * dt)) :=
      continuous_const.add (continuous_const.mul (continuous_const.sub
        (Real.continuous_exp.comp (continuous_const.mul continuous_id))))
    have h0 := hcont.tendsto 0
    simpa using h0
  · intro c t k hk
    have h1 : Filter.Tendsto (fun dt : ℝ => k * dt) Filter.atTop Filter.atTop :=
      Filter.Tendsto.const_mul_atTop hk Filter.tendsto_id
    have h2 : Filter.Tendsto (fun dt : ℝ => -k * dt) Filter.atTop Filter.atBot := by
      have hcomp := Filter.tendsto_neg_atTop_atBot.comp h1
      have heq : (fun dt : ℝ => -k * dt) = (Neg.neg ∘ fun dt : ℝ => k * dt) := by
        funext dt
        simp [neg_mul]
      rw [heq]
      exact hcomp
    have h3 : Filter.Tendsto (fun dt : ℝ => Real.exp (-k * dt))
        Filter.atTop (nhds 0) := Real.tendsto_exp_atBot.comp h2
    have h4 : Filter.Tendsto (fun dt : ℝ => c + (t - c) * (1 - Real.exp (-k * dt)))
        Filter.atTop (nhds (c + (t - c) * (1 - 0))) :=
      tendsto_const_nhds.add ((tendsto_const_nhds.sub h3).const_mul (t - c))
    have heq : c + (t - c) * (1 - 0) = t := by ring
    rwa [heq] at h4
  · have h8 : (-8 : ℝ) * 0.1 = -(4 / 5) := by norm_num
    rw [h8]
    have hb := exp_neg_point_eight_bounds
    constructor <;> linarith [hb.1, hb.2]

/-- Witness for `smoothing_law`: a lerping state at distance 10 with
`smoothing = 8`, `dt = 0.1` moves by exactly the fraction
`1 - e^{-0.8}` of the remaining distance. -/
theorem smoothing_law_witness :
    (sndrLerpStage 8 0.1 ⟨0, 0, 0, 0, 10, 0, true⟩).center_x =
      0 + (10 - 0) * (1 - Real.exp (-8 * 0.1)) := by
  have h02 : (0.2 : ℝ) ≤ Real.exp (-8 * 0.1) := by
    have := Real.add_one_le_exp (-8 * 0.1 : ℝ)
    norm_num at this ⊢
    linarith
  have h := smoothing_law.1 8 0.1 ⟨0, 0, 0, 0, 10, 0, true⟩ rfl
    (by simp only; nlinarith [h02])
  exact h.1

/-- Counterexample to C6 as stated: with `smoothing = 8`, `dt = 0.1`,
center 0 and target 1, the post-step distance `e^{-0.8} < 0.75` is
within the settle threshold, so the code snaps the center exactly to 1;
the claimed unconditional law would give `1 - e^{-0.8} ≠ 1`. -/
theorem smoothing_snap_counterexample :
    (sndrLerpStage 8 0.1 ⟨0, 0, 0, 0, 1, 0, true⟩).center_x = 1 ∧
    (0 : ℝ) + (1 - 0) * (1 - Real.exp (-8 * 0.1)) ≠ 1 := by
  have h8 : (-8 : ℝ) * 0.1 = -(4 / 5) := by norm_num
  have hb := exp_neg_point_eight_bounds
  have hpos : 0 < Real.exp (-8 * 0.1 : ℝ) := Real.exp_pos _
  constructor
  · rw [sndrLerpStage_snap 8 0.1 0 0 0 0 1 0 ?near]
    case near =>
      rw [h8]
      nlinarith [hb.1, hb.2]
  · intro hcontra
    nlinarith [hpos]

theorem sndrFollowUpdate_follow_eq (cfgX cfgY width height : ℕ)
    (smoothing deadzone : ℝ) (srcW srcH : ℕ) (srcs : CursorSources)
    (elapsed : ℝ) (st : SndrState) :
    sndrFollowUpdate true cfgX cfgY width height smoothing deadzone srcW srcH
        srcs elapsed st =
      sndrLerpStage smoothing (max elapsed 0.000001)
        { center_x := st.center_x, center_y := st.center_y,
          cursor_x := (sndrClampedCursor srcs srcW srcH st).1,
          cursor_y := (sndrClampedCursor srcs srcW srcH st).2,
          target_x := (sndrRetarget deadzone (width : ℝ) (height : ℝ)
            st.center_x st.center_y (sndrClampedCursor srcs srcW srcH st).1
            (sndrClampedCursor srcs srcW srcH st).2 st.cursor_x st.cursor_y
            st.target_x st.target_y st.is_lerping).1.1,
          target_y := (sndrRetarget deadzone (width : ℝ) (height : ℝ)
            st.center_x st.center_y (sndrClampedCursor srcs srcW srcH st).1
            (sndrClampedCursor srcs srcW srcH st).2 st.cursor_x st.cursor_y
            st.target_x st.target_y st.is_lerping).1.2,
          is_lerping := (sndrRetarget deadzone (width : ℝ) (height : ℝ)
            st.center_x st.center_y (sndrClampedCursor srcs srcW srcH st).1
            (sndrClampedCursor srcs srcW srcH st).2 st.cursor_x st.cursor_y
            st.target_x st.target_y st.is_lerping).2 } := rfl

/-- C7 (amended): a frame whose accepted (resolved, clamped) cursor lies
strictly inside the deadzone leaves the crop center unchanged provided
the cursor also moved by more than the 0.25 px change epsilon (which
retargets onto the current center) or the controller was not lerping;
a prior in-flight lerp toward an old target otherwise keeps moving the
center even with the cursor inside the deadzone. -/
theorem sndr_deadzone_stability (cfgX cfgY width height : ℕ)
    (smoothing deadzone : ℝ) (srcW srcH : ℕ) (srcs : CursorSources)
    (elapsed : ℝ) (st : SndrState) (hdz : 0 < deadzone)
    (hxl : st.center_x - (width : ℝ) * (deadzone / 100) / 2 <
      (sndrClampedCursor srcs srcW srcH st).1)
    (hxr : (sndrClampedCursor srcs srcW srcH st).1 <
      st.center_x + (width : ℝ) * (deadzone / 100) / 2)
    (hyl : st.center_y - (height : ℝ) * (deadzone / 100) / 2 <
      (sndrClampedCursor srcs srcW srcH st).2)
    (hyr : (sndrClampedCursor srcs srcW srcH st).2 <
      st.center_y + (height : ℝ) * (deadzone / 100) / 2)
    (hmode : cursorChanged (sndrClampedCursor srcs srcW srcH st).1
        (sndrClampedCursor srcs srcW srcH st).2 st.cursor_x st.cursor_y = true ∨
      st.is_lerping = false) :
    (sndrFollowUpdate true cfgX cfgY width height smoothing deadzone srcW srcH
        srcs elapsed st).center_x = st.center_x ∧
    (sndrFollowUpdate true cfgX cfgY width height smoothing deadzone srcW srcH
        srcs elapsed st).center_y = st.center_y := by
  rw [sndrFollowUpdate_follow_eq]
  obtain ⟨cX, cY, pX, pY, tX, tY, lerp⟩ := st
  simp only at hxl hxr hyl hyr hmode ⊢
  set u := sndrClampedCursor srcs srcW srcH ⟨cX, cY, pX, pY, tX, tY, lerp⟩ with hu
  by_cases hch : cursorChanged u.1 u.2 pX pY = true
  · have hr : sndrRetarget deadzone (width : ℝ) (height : ℝ) cX cY u.1 u.2
        pX pY tX tY lerp = ((cX, cY), true) := by
      unfold sndrRetarget
      rw [hch, if_pos rfl, if_pos hdz]
      unfold dzTargetAxis
      rw [if_neg (not_lt.mpr hxl.le), if_neg (not_lt.mpr hxr.le),
        if_neg (not_lt.mpr hyl.le), if_neg (not_lt.mpr hyr.le)]
    rw [hr]
    rw [sndrLerpStage_snap smoothing (max elapsed 0.000001) cX cY u.1 u.2 cX cY
      (by ring_nf; norm_num)]
    exact ⟨rfl, rfl⟩
  · have hlerp : lerp = false := by
      rcases hmode with hmode | hmode
      · exact absurd hmode hch
      · exact hmode
    have hr : sndrRetarget deadzone (width : ℝ) (height : ℝ) cX cY u.1 u.2
        pX pY tX tY lerp = ((tX, tY), lerp) := by
      unfold sndrRetarget
      rw [Bool.not_eq_true] at hch
      rw [hch, if_neg Bool.false_ne_true]
    rw [hr, hlerp]
    rw [sndrLerpStage_id smoothing (max elapsed 0.000001) _ rfl]
    exact ⟨rfl, rfl⟩

/-- Witness for `sndr_deadzone_stability`: an embedded cursor sample at
`(1000, 540)` inside the deadzone of the crop centered at `(960, 540)`
retargets onto the center and leaves it unchanged. -/
theorem sndr_deadzone_stability_witness :
    (sndrFollowUpdate true 0 0 1280 720 8 20 1920 1080
        ⟨some (1000, 540), none, none⟩ 0.1
        ⟨960, 540, 960, 540, 960, 540, false⟩).center_x = 960 ∧
    (sndrFollowUpdate true 0 0 1280 720 8 20 1920 1080
        ⟨some (1000, 540), none, none⟩ 0.1
        ⟨960, 540, 960, 540, 960, 540, false⟩).center_y = 540 := by
  have hu : sndrClampedCursor ⟨some (1000, 540), none, none⟩ 1920 1080
      ⟨960, 540, 960, 540, 960, 540, false⟩ = ((1000 : ℝ), (540 : ℝ)) := by
    norm_num [sndrClampedCursor, resolveCursor, clampQ, max_def, min_def]
  exact sndr_deadzone_stability 0 0 1280 720 8 20 1920 1080
    ⟨some (1000, 540), none, none⟩ 0.1 ⟨960, 540, 960, 540, 960, 540, false⟩
    (by norm_num)
    (by rw [hu]; norm_num) (by rw [hu]; norm_num)
    (by rw [hu]; norm_num) (by rw [hu]; norm_num)
    (Or.inl (by rw [hu]; norm_num [cursorChanged]))

/-- Counterexample to C7 as stated: the cursor `(1000, 540)` lies
strictly inside the deadzone around the center `(960, 540)`, but with a
prior in-flight lerp (`is_lerping = true`, target `(1722, 540)`) and a
stationary cursor, processing the frame still moves the center. -/
theorem sndr_deadzone_stability_counterexample :
    ((960 : ℝ) - 1280 * (20 / 100) / 2 < 1000 ∧
      (1000 : ℝ) < 960 + 1280 * (20 / 100) / 2 ∧
      (540 : ℝ) - 720 * (20 / 100) / 2 < 540 ∧
      (540 : ℝ) < 540 + 720 * (20 / 100) / 2) ∧
    (sndrFollowUpdate true 0 0 1280 720 8 20 1920 1080 ⟨none, none, none⟩ 0.1
      ⟨960, 540, 1000, 540, 1722, 540, true⟩).center_x ≠ 960 := by
  constructor
  · norm_num
  · rw [sndrFollowUpdate_follow_eq]
    have hu : sndrClampedCursor ⟨none, none, none⟩ 1920 1080
        ⟨960, 540, 1000, 540, 1722, 540, true⟩ = ((1000 : ℝ), (540 : ℝ)) := by
      norm_num [sndrClampedCursor, resolveCursor, clampQ, max_def, min_def]
    rw [hu]
    have hch : cursorChanged (1000 : ℝ) 540 1000 540 = false := by
      norm_num [cursorChanged]
    have hr : sndrRetarget (20 : ℝ) 1280 720 960 540 1000 540 1000 540
        1722 540 true = ((1722, 540), true) := by
      unfold sndrRetarget
      rw [hch, if_neg Bool.false_ne_true]
    simp only [Nat.cast_ofNat, hr]
    have hmax : max (0.1 : ℝ) 0.000001 = 0.1 := by norm_num [max_def]
    rw [hmax]
    have h02 : (0.2 : ℝ) ≤ Real.exp (-8 * 0.1) := by
      have := Real.add_one_le_exp (-8 * 0.1 : ℝ)
      norm_num at this ⊢
      linarith
    have hlt1 : Real.exp (-8 * 0.1 : ℝ) < 1 :=
      Real.exp_lt_one_iff.mpr (by norm_num)
    rw [sndrLerpStage_far 8 0.1 960 540 1000 540 1722 540
      (by rw [not_le]; nlinarith [h02, hlt1])]
    simp only
    intro hcontra
    nlinarith [hlt1]

theorem sndrLerpStage_cursor (k dt : ℝ) (st : SndrState) :
    (sndrLerpStage k dt st).cursor_x = st.cursor_x ∧
    (sndrLerpStage k dt st).cursor_y = st.cursor_y := by
  unfold sndrLerpStage
  dsimp only
  split
  · split <;> exact ⟨rfl, rfl⟩
  · exact ⟨rfl, rfl⟩

/-- C8: the three cursor sources are consulted in the fixed order
embedded metadata → compositor cell → accumulated deltas; the first
that yields a value wins regardless of the later ones; with no source
yielding a value (or zero accumulated motion) the cursor freezes at its
previous (in-range) value and the frame is still processed into a
normal follow-state update, not an error. -/
theorem cursor_source_priority :
    (∀ (srcs : CursorSources) (px py m1 m2 : ℝ), srcs.meta = some (m1, m2) →
      resolveCursor srcs px py = (m1, m2)) ∧
    (∀ (srcs : CursorSources) (px py v1 v2 : ℝ), srcs.meta = none →
      srcs.cosmic = some (v1, v2) → resolveCursor srcs px py = (v1, v2)) ∧
    (∀ (srcs : CursorSources) (px py d1 d2 : ℝ), srcs.meta = none →
      srcs.cosmic = none → srcs.deltas = some (d1, d2) →
      resolveCursor srcs px py = (px + d1, py + d2)) ∧
    (∀ (srcs : CursorSources) (px py : ℝ), srcs.meta = none →
      srcs.cosmic = none → (srcs.deltas = none ∨ srcs.deltas = some (0, 0)) →
      resolveCursor srcs px py = (px, py)) ∧
    (∀ (cfgX cfgY width height : ℕ) (smoothing deadzone : ℝ) (srcW srcH : ℕ)
      (elapsed : ℝ) (st : SndrState),
      0 ≤ st.cursor_x → st.cursor_x ≤ ((srcW - 1 : ℕ) : ℝ) →
      0 ≤ st.cursor_y → st.cursor_y ≤ ((srcH - 1 : ℕ) : ℝ) →
      (sndrFollowUpdate true cfgX cfgY width height smoothing deadzone srcW srcH
        ⟨none, none, none⟩ elapsed st).cursor_x = st.cursor_x ∧
      (sndrFollowUpdate true cfgX cfgY width height smoothing deadzone srcW srcH
        ⟨none, none, none⟩ elapsed st).cursor_y = st.cursor_y) := by
  refine ⟨?_, ?_, ?_, ?_, ?_⟩
  · intro srcs px py m1 m2 h
    unfold resolveCursor
    rw [h]
  · intro srcs px py v1 v2 hm hc
    unfold resolveCursor
    rw [hm, hc]
  · intro srcs px py d1 d2 hm hc hd
    unfold resolveCursor
    rw [hm, hc, hd]
  · intro srcs px py hm hc hd
    rcases hd with hd | hd
    · unfold resolveCursor
      rw [hm, hc, hd]
    · unfold resolveCursor
      rw [hm, hc, hd]
      norm_num
  · intro cfgX cfgY width height smoothing deadzone srcW srcH elapsed st
      h0x hlex h0y hley
    rw [sndrFollowUpdate_follow_eq]
    have hcl : sndrClampedCursor ⟨none, none, none⟩ srcW srcH st =
        (st.cursor_x, st.cursor_y) := by
      unfold sndrClampedCursor resolveCursor clampQ
      simp only
      rw [max_eq_left h0x, min_eq_left hlex, max_eq_left h0y, min_eq_left hley]
    rw [hcl]
    exact ⟨(sndrLerpStage_cursor _ _ _).1, (sndrLerpStage_cursor _ _ _).2⟩

/-- Witness for `cursor_source_priority`: concrete source combinations
for each priority case. -/
theorem cursor_source_priority_witness :
    resolveCursor ⟨some (3, 4), some (5, 6), some (7, 8)⟩ 0 0 = (3, 4) ∧
    resolveCursor ⟨none, some (5, 6), some (7, 8)⟩ 0 0 = (5, 6) ∧
    resolveCursor ⟨none, none, some (7, 8)⟩ 1 2 = (1 + 7, 2 + 8) ∧
    resolveCursor ⟨none, none, none⟩ 1 2 = (1, 2) :=
  ⟨cursor_source_priority.1 _ 0 0 3 4 rfl,
   cursor_source_priority.2.1 _ 0 0 5 6 rfl rfl,
   cursor_source_priority.2.2.1 _ 1 2 7 8 rfl rfl rfl,
   cursor_source_priority.2.2.2.1 _ 1 2 rfl rfl (Or.inl rfl)⟩

/-! ## `vp-test` follow recorder: state update then decimation

`vp-test/src/main.rs` lines 862-1035.  The recorder's `FollowState`
(lines 730-740) minus the two `Instant` fields: `last_frame_at` only
produces `dt` (input `elapsed` here) and `next_sample_at` only throttles
logging (lines 961-985), which affects no other state.  The boundary
policy here differs from `vp-sndr`: follow activates when the cursor
leaves the current crop rectangle itself (lines 941-951), the movement
epsilon is `0.001` (line 935), the lerp is unconditional and there is
no settle snap (lines 986-990). -/

structure TestState : Type where
  center_x : ℝ
  center_y : ℝ
  cursor_x : ℝ
  cursor_y : ℝ
  target_x : ℝ
  target_y : ℝ
  follow_active : Bool

/-- The recorder's per-frame follow-state mutation (lines 881-995). -/
noncomputable def testFollowUpdate (outW outH srcW srcH : ℕ) (smoothing : ℝ)
    (srcs : CursorSources) (elapsed : ℝ) (st : TestState) : TestState :=
  let u := (clampQ (resolveCursor srcs st.cursor_x st.cursor_y).1 0
      ((srcW - 1 : ℕ) : ℝ),
    clampQ (resolveCursor srcs st.cursor_x st.cursor_y).2 0
      ((srcH - 1 : ℕ) : ℝ))
  let moved : Bool := decide (0.001 < |u.1 - st.cursor_x|) ||
    decide (0.001 < |u.2 - st.cursor_y|)
  let left := clampQ (st.center_x - (outW : ℝ) / 2) 0 ((srcW - outW : ℕ) : ℝ)
  let top := clampQ (st.center_y - (outH : ℝ) / 2) 0 ((srcH - outH : ℕ) : ℝ)
  let inBounds : Bool := decide (left ≤ u.1) && decide (u.1 < left + (outW : ℝ)) &&
    decide (top ≤ u.2) && decide (u.2 < top + (outH : ℝ))
  let active := !inBounds
  let tgt :=
    if active = false then (st.center_x, st.center_y)
    else if moved || !st.follow_active then (u.1, u.2)
    else (st.target_x, st.target_y)
  let alpha := 1 - Real.exp (-smoothing * max elapsed 0.000001)
  { center_x := st.center_x + (tgt.1 - st.center_x) * alpha,
    center_y := st.center_y + (tgt.2 - st.center_y) * alpha,
    cursor_x := u.1, cursor_y := u.2,
    target_x := tgt.1, target_y := tgt.2,
    follow_active := active }

/-- Mutable per-session frame bookkeeping of the recorder callback:
`FollowState`, the two counters (lines 849-850), and the shared delta
accumulator cell. -/
structure TestFrame : Type where
  st : TestState
  inputCount : ℕ
  emitCount : ℕ
  deltasCell : Option (ℝ × ℝ)

/-- One invocation of the recorder's `new_sample` callback
(lines 864-1035): the full follow-state update (lines 881-996, written
out as in the callback), the delta-accumulator drain (lines 904-927),
then the decimation decision on the post-update counter (lines
998-1008) and, only when emitting, the emission-counter increment
(lines 1020-1025).  Returns the updated bookkeeping and whether the
frame was emitted. -/
noncomputable def testFrameStep (outW outH srcW srcH frameSkip : ℕ)
    (smoothing : ℝ) (srcs : CursorSources) (elapsed : ℝ) (s : TestFrame) :
    TestFrame × Bool :=
  let u := (clampQ (resolveCursor srcs s.st.cursor_x s.st.cursor_y).1 0
      ((srcW - 1 : ℕ) : ℝ),
    clampQ (resolveCursor srcs s.st.cursor_x s.st.cursor_y).2 0
      ((srcH - 1 : ℕ) : ℝ))
  let moved : Bool := decide (0.001 < |u.1 - s.st.cursor_x|) ||
    decide (0.001 < |u.2 - s.st.cursor_y|)
  let left := clampQ (s.st.center_x - (outW : ℝ) / 2) 0 ((srcW - outW : ℕ) : ℝ)
  let top := clampQ (s.st.center_y - (outH : ℝ) / 2) 0 ((srcH - outH : ℕ) : ℝ)
  let inBounds : Bool := decide (left ≤ u.1) && decide (u.1 < left + (outW : ℝ)) &&
    decide (top ≤ u.2) && decide (u.2 < top + (outH : ℝ))
  let active := !inBounds
  let tgt :=
    if active = false then (s.st.center_x, s.st.center_y)
    else if moved || !s.st.follow_active then (u.1, u.2)
    else (s.st.target_x, s.st.target_y)
  let alpha := 1 - Real.exp (-smoothing * max elapsed 0.000001)
  let st' : TestState :=
    { center_x := s.st.center_x + (tgt.1 - s.st.center_x) * alpha,
      center_y := s.st.center_y + (tgt.2 - s.st.center_y) * alpha,
      cursor_x := u.1, cursor_y := u.2,
      target_x := tgt.1, target_y := tgt.2,
      follow_active := active }
  let deltasCell' :=
    if srcs.meta.isNone && srcs.cosmic.isNone then
      Option.map (fun _ => ((0 : ℝ), (0 : ℝ))) s.deltasCell
    else s.deltasCell
  let emit := shouldEmit frameSkip s.inputCount
  ({ st := st', inputCount := s.inputCount + 1,
     emitCount := if emit then s.emitCount + 1 else s.emitCount,
     deltasCell := deltasCell' }, emit)

/-- C10: the recorder's decimation decision is taken only after the full
follow-state update, so every input frame — emitted or dropped —
advances the follow state exactly as `testFollowUpdate` does (cursor
resolved and clamped, target and `follow_active` recomputed, center
lerped with the frame's `dt`), drains the consulted delta accumulator,
and increments the input counter; the emission decision is
`inputCount mod (frame_skip+1) = 0` on the pre-increment counter and
only it gates the emission counter. -/
theorem decimation_after_update (outW outH srcW srcH frameSkip : ℕ)
    (smoothing : ℝ) (srcs : CursorSources) (elapsed : ℝ) (s : TestFrame) :
    (testFrameStep outW outH srcW srcH frameSkip smoothing srcs elapsed s).1.st =
      testFollowUpdate outW outH srcW srcH smoothing srcs elapsed s.st ∧
    (testFrameStep outW outH srcW srcH frameSkip smoothing srcs elapsed
      s).1.inputCount = s.inputCount + 1 ∧
    (testFrameStep outW outH srcW srcH frameSkip smoothing srcs elapsed s).2 =
      shouldEmit frameSkip s.inputCount ∧
    (testFrameStep outW outH srcW srcH frameSkip smoothing srcs elapsed
      s).1.deltasCell =
      (if srcs.meta.isNone && srcs.cosmic.isNone then
        Option.map (fun _ => ((0 : ℝ), (0 : ℝ))) s.deltasCell
      else s.deltasCell) ∧
    (testFrameStep outW outH srcW srcH frameSkip smoothing srcs elapsed
      s).1.emitCount =
      (if shouldEmit frameSkip s.inputCount then s.emitCount + 1
      else s.emitCount) :=
  ⟨rfl, rfl, rfl, rfl, rfl⟩

end VPLink
